import Mathlib

/-!
# Verification of `adjust_brightness.py`

A shallow embedding of the ambient-light brightness adjuster, plus theorems
checking its specification.  Python integers are modelled by `Int`; Python's
floor division `//` is `Int.fdiv`.  Side effects (the `brightnessctl` set
command, the rendered display line, the sleep call) are modelled as explicit
data returned by the embedded functions.
-/

namespace AdjustBrightness

/-- Embeds `calculate_target_brightness(lux, max_lux, min_lux)`:
`if lux >= max_lux: return 100` and otherwise
`return max(min_lux, (lux * 100) // max_lux)`. -/
def calculate_target_brightness (lux max_lux min_lux : Int) : Int :=
  if lux ≥ max_lux then 100
  else max min_lux ((lux * 100).fdiv max_lux)

/-- `calculate_target_brightness` with the Python division-by-zero made
explicit: `none` exactly when the Python expression `(lux * 100) // max_lux`
is evaluated with `max_lux = 0` (a `ZeroDivisionError`); otherwise `some` of
the value the Python function returns. -/
def calculate_target_brightness_checked (lux max_lux min_lux : Int) :
    Option Int :=
  if lux ≥ max_lux then some 100
  else if max_lux = 0 then none
  else some (max min_lux ((lux * 100).fdiv max_lux))

/-- Embeds `get_brightness()`: the two integers read from
`brightnessctl g` and `brightnessctl m` are the inputs, and the result is
`(current_brightness * 100) // max_brightness`. -/
def get_brightness (current_brightness max_brightness : Int) : Int :=
  (current_brightness * 100).fdiv max_brightness

/-- The observable outcome of one call to `adjust_brightness_step`:
the returned boolean, the brightness the device holds afterwards (the device
faithfully reflects each `set_brightness` call), the list of percentages
passed to `set_brightness` (`brightnessctl s`), and the
`(brightness, target, lux)` triples passed to `update_display`. -/
structure StepResult where
  adjusted : Bool
  newCurrent : Int
  setCommands : List Int
  displayLines : List (Int × Int × Int)
  deriving DecidableEq, Repr

/-- Embeds `adjust_brightness_step(target_brightness, lux, ...)`.
`current` is the percentage `get_brightness()` reports at the start of the
call.  If `current == target` the function returns `False` having issued no
set command; otherwise it moves one unit toward the target, sets that level,
renders the display line with the new current/target/lux, and returns
`True`. -/
def adjust_brightness_step (target_brightness lux current : Int) :
    StepResult :=
  if current = target_brightness then ⟨false, current, [], []⟩
  else
    let step : Int := if target_brightness > current then 1 else -1
    ⟨true, current + step, [current + step],
      [(current + step, target_brightness, lux)]⟩

/-- The device brightness after one call to `adjust_brightness_step`
(the device faithfully reflecting the set command, if any). -/
def stepNext (target_brightness lux current : Int) : Int :=
  (adjust_brightness_step target_brightness lux current).newCurrent

/-- The device brightness after `n` successive calls to
`adjust_brightness_step` with a fixed target and lux. -/
def iterSteps (target_brightness lux : Int) : Nat → Int → Int
  | 0, current => current
  | n + 1, current =>
      iterSteps target_brightness lux n (stepNext target_brightness lux current)

/-- Embeds `num_hashes = (brightness_level * max_width) // 100` from
`update_display`. -/
def num_hashes (brightness_level max_width : Int) : Int :=
  (brightness_level * max_width).fdiv 100

/-- Embeds the bar body `'#' * num_hashes + ' ' * (max_width - num_hashes)`
of `update_display` (the segment region between `[` and `]` of the rendered
line).  Python string repetition with a negative count yields the empty
string, which `Int.toNat` reproduces. -/
def bar (brightness_level max_width : Int) : String :=
  String.mk
    (List.replicate (num_hashes brightness_level max_width).toNat '#' ++
      List.replicate
        (max_width - num_hashes brightness_level max_width).toNat ' ')

/-- The possible outcomes of `open(sensor_path)` followed by
`int(sensor_file.read().strip())` inside `read_ambient_light`:
the file may be absent (`FileNotFoundError`), unreadable for another reason
such as permission denied (`PermissionError`), or readable with content that
either parses as an integer (`ok (some n)`) or raises `ValueError`
(`ok none`). -/
inductive SensorRead where
  | missing : SensorRead
  | denied : SensorRead
  | ok : Option Int → SensorRead
  deriving DecidableEq, Repr

/-- The observable outcome of one call to `read_ambient_light`:
`value = some lux` when the call returns normally, `value = none` when an
exception escapes to the caller; `warned` records whether the
`logger.warning(...)` line ran. -/
structure ReadResult where
  value : Option Int
  warned : Bool
  deriving DecidableEq, Repr

/-- Embeds `read_ambient_light(sensor_path, logger)`.  The `except
(FileNotFoundError, ValueError)` clause logs a warning and re-raises for a
missing file or unparseable content; any other exception (such as
`PermissionError`) propagates without the warning line. -/
def read_ambient_light : SensorRead → ReadResult
  | .missing => ⟨none, true⟩
  | .denied => ⟨none, false⟩
  | .ok none => ⟨none, true⟩
  | .ok (some lux) => ⟨some lux, false⟩

/-- The loop configuration built once by `parse_args`: `--max-lux`,
`--min-lux`, `--max-width`, `--short-sleep`, `--long-sleep`.  The sleep
durations are never computed with, only selected, so they are carried as
rationals. -/
structure Config where
  max_lux : Int
  min_lux : Int
  max_width : Int
  short_sleep : ℚ
  long_sleep : ℚ
  deriving DecidableEq, Repr

/-- The `parse_args` default for `--min-lux` (the brightness floor). -/
def default_min_lux : Int := 1

/-- The observable outcome of one iteration of the `while True` loop in
`main`: the device brightness afterwards, the duration passed to
`time.sleep`, the number of `get_brightness` device queries, the set
commands, and the display lines. -/
structure IterResult where
  newCurrent : Int
  sleep : ℚ
  deviceQueries : Nat
  setCommands : List Int
  displayLines : List (Int × Int × Int)
  deriving DecidableEq, Repr

/-- Embeds one iteration of the `while True` loop in `main`.  `sensor` is the
outcome of `read_ambient_light`, `current` the device brightness percentage
at the start of the iteration.  An exception from the sensor read or from
`calculate_target_brightness` (division by zero) is caught by
`except Exception`, which sleeps `long_sleep` and continues; otherwise one
convergence step runs and the sleep is `short_sleep` exactly when the step
reported an adjustment.  The function is total: no iteration terminates the
process. -/
def main_iter (cfg : Config) (sensor : SensorRead) (current : Int) :
    IterResult :=
  match (read_ambient_light sensor).value with
  | none => ⟨current, cfg.long_sleep, 0, [], []⟩
  | some lux =>
    match calculate_target_brightness_checked lux cfg.max_lux cfg.min_lux with
    | none => ⟨current, cfg.long_sleep, 0, [], []⟩
    | some target =>
      let r := adjust_brightness_step target lux current
      ⟨r.newCurrent, if r.adjusted then cfg.short_sleep else cfg.long_sleep,
        1, r.setCommands, r.displayLines⟩

/-! ## Shared helper lemmas -/

/-- Python's `//` on integers is the floor of the rational quotient
(positive divisor case). -/
theorem fdiv_eq_floor_div (a : Int) {b : Int} (hb : 0 < b) :
    a.fdiv b = ⌊(a : ℚ) / (b : ℚ)⌋ := by
  have hbn : ((b.toNat : ℤ)) = b := Int.toNat_of_nonneg hb.le
  calc a.fdiv b = a / b := Int.fdiv_eq_ediv a hb.le
    _ = a / (b.toNat : ℤ) := by rw [hbn]
    _ = ⌊(a : ℚ) / (b.toNat : ℚ)⌋ := (Rat.floor_intCast_div_natCast a b.toNat).symm
    _ = ⌊(a : ℚ) / (b : ℚ)⌋ := by
        rw [show ((b.toNat : ℚ)) = (b : ℚ) by exact_mod_cast hbn]

/-! ## Claims -/

/-- C1: with `max_lux > 0`, `calculate_target_brightness` returns 100 when
`lux ≥ max_lux`, and for `0 ≤ lux < max_lux` returns
`max(min_lux, lux * 100 / max_lux)` where the division is integer floor
division (the floor of the rational quotient). -/
theorem calculate_target_brightness_spec
    (lux max_lux min_lux : Int) (hmax : 0 < max_lux) :
    (max_lux ≤ lux → calculate_target_brightness lux max_lux min_lux = 100) ∧
    (0 ≤ lux → lux < max_lux →
      calculate_target_brightness lux max_lux min_lux =
        max min_lux ⌊((lux * 100 : ℤ) : ℚ) / (max_lux : ℚ)⌋) := by
  constructor
  · intro h
    simp [calculate_target_brightness, h]
  · intro _ h
    rw [calculate_target_brightness, if_neg (not_le.mpr h),
      fdiv_eq_floor_div _ hmax]

/-- C1 witness at `lux = 400` and `lux = 150` with `max_lux = 300`,
`min_lux = 1`. -/
theorem calculate_target_brightness_spec_witness :
    calculate_target_brightness 400 300 1 = 100 ∧
    calculate_target_brightness 150 300 1 =
      max 1 ⌊((150 * 100 : ℤ) : ℚ) / ((300 : ℤ) : ℚ)⌋ ∧
    calculate_target_brightness 150 300 1 = 50 :=
  ⟨(calculate_target_brightness_spec 400 300 1 (by decide)).1 (by decide),
   (calculate_target_brightness_spec 150 300 1 (by decide)).2
     (by decide) (by decide),
   by decide⟩

/-- C10: for `lux ≥ 0` the division in `calculate_target_brightness` is
never evaluated with `max_lux = 0`: the checked variant, which is `none`
exactly on the Python `ZeroDivisionError`, agrees with the total function
for every `max_lux`, because the `lux ≥ max_lux` branch returns 100 first
whenever `max_lux ≤ 0 ≤ lux`. -/
theorem calculate_target_brightness_no_div_by_zero
    (lux max_lux min_lux : Int) (hlux : 0 ≤ lux) :
    calculate_target_brightness_checked lux max_lux min_lux =
      some (calculate_target_brightness lux max_lux min_lux) := by
  unfold calculate_target_brightness_checked calculate_target_brightness
  by_cases h : lux ≥ max_lux
  · simp [h]
  · have hne : max_lux ≠ 0 := by omega
    simp [h, hne]

/-- C10 witness at `lux = 5`, `max_lux = 0`. -/
theorem calculate_target_brightness_no_div_by_zero_witness :
    calculate_target_brightness_checked 5 0 1 =
      some (calculate_target_brightness 5 0 1) :=
  calculate_target_brightness_no_div_by_zero 5 0 1 (by decide)

/-- C4 counterexample: with the configured floor `min_lux = 101` and
`lux = max_lux = 300` the computed target is 100, which does not lie in
`[min_lux, 100]`. -/
theorem target_range_counterexample :
    ¬ (101 ≤ calculate_target_brightness 300 300 101 ∧
       calculate_target_brightness 300 300 101 ≤ 100) := by decide

/-- C4 amended: for every `lux` and every configuration with `max_lux > 0`
and floor `min_lux ≤ 100`, the computed target brightness lies in
`[min_lux, 100]`; the `parse_args` default for the floor is 1. -/
theorem target_range (lux max_lux min_lux : Int)
    (hmax : 0 < max_lux) (hfloor : min_lux ≤ 100) :
    (min_lux ≤ calculate_target_brightness lux max_lux min_lux ∧
     calculate_target_brightness lux max_lux min_lux ≤ 100) ∧
    default_min_lux = 1 := by
  refine ⟨?_, rfl⟩
  unfold calculate_target_brightness
  by_cases h : lux ≥ max_lux
  · simpa [h] using hfloor
  · rw [if_neg h]
    refine ⟨le_max_left _ _, ?_⟩
    have hq : (lux * 100).fdiv max_lux < 100 := by
      rw [Int.fdiv_eq_ediv _ hmax.le, Int.ediv_lt_iff_lt_mul hmax]
      push_neg at h
      nlinarith
    exact max_le hfloor hq.le

/-- C4 witness at `lux = 150`, `max_lux = 300`, `min_lux = 1`. -/
theorem target_range_witness :
    ((1 ≤ calculate_target_brightness 150 300 1 ∧
      calculate_target_brightness 150 300 1 ≤ 100) ∧
     default_min_lux = 1) :=
  target_range 150 300 1 (by decide) (by decide)

/-- When not yet at target, the step moves exactly one unit toward it. -/
theorem stepNext_eq (target lux current : Int) (h : current ≠ target) :
    stepNext target lux current =
      current + (if target > current then 1 else -1) := by
  simp [stepNext, adjust_brightness_step, h]

/-- At the target, the step leaves the device untouched. -/
theorem stepNext_self (target lux : Int) :
    stepNext target lux target = target := by
  simp [stepNext, adjust_brightness_step]

/-- `iterSteps` peels a step off the outside as well as the inside. -/
theorem iterSteps_succ_out (target lux : Int) (n : Nat) (c : Int) :
    iterSteps target lux (n + 1) c =
      stepNext target lux (iterSteps target lux n c) := by
  induction n generalizing c with
  | zero => rfl
  | succ n ih =>
      rw [iterSteps, ih, iterSteps]

/-- Splitting a run of steps. -/
theorem iterSteps_add (target lux : Int) (a b : Nat) (c : Int) :
    iterSteps target lux (a + b) c =
      iterSteps target lux b (iterSteps target lux a c) := by
  induction a generalizing c with
  | zero => rw [Nat.zero_add]; rfl
  | succ a ih =>
      rw [show a + 1 + b = (a + b) + 1 by omega, iterSteps, ih, iterSteps]

/-- The target is a fixed point of the iterated step. -/
theorem iterSteps_fixed (target lux : Int) (n : Nat) :
    iterSteps target lux n target = target := by
  induction n with
  | zero => rfl
  | succ n ih => rw [iterSteps, stepNext_self, ih]

/-- Each step shrinks the distance to target by exactly one. -/
theorem dist_iterSteps (target lux : Int) :
    ∀ (k : Nat) (c : Int), k ≤ (target - c).natAbs →
      (target - iterSteps target lux k c).natAbs = (target - c).natAbs - k := by
  intro k
  induction k with
  | zero => intro c _; rfl
  | succ k ih =>
      intro c hk
      have hne : c ≠ target := by omega
      rw [iterSteps]
      have h1 : (target - stepNext target lux c).natAbs =
          (target - c).natAbs - 1 := by
        rw [stepNext_eq target lux c hne]
        split_ifs with hgt <;> omega
      rw [ih (stepNext target lux c) (by omega)]
      omega

/-- The step reports an adjustment exactly when not yet at target. -/
theorem adjusted_iff (target lux current : Int) :
    (adjust_brightness_step target lux current).adjusted = true ↔
      current ≠ target := by
  by_cases h : current = target <;> simp [adjust_brightness_step, h]

/-- C2: for current and target in `[0, 100]`, with the device faithfully
reflecting each set command, every one of the first `|target - current|`
calls reports an adjustment and moves the device by exactly one unit; after
`|target - current|` calls (and at every later call count) the device holds
the target; and a call made at the target returns `false` with no set
command, no display line, and no device change. -/
theorem step_convergence (current target lux : Int)
    (_h0c : 0 ≤ current) (_h1c : current ≤ 100)
    (_h0t : 0 ≤ target) (_h1t : target ≤ 100) :
    (∀ k, k < (target - current).natAbs →
      (adjust_brightness_step target lux
        (iterSteps target lux k current)).adjusted = true ∧
      (iterSteps target lux (k + 1) current -
        iterSteps target lux k current).natAbs = 1) ∧
    (∀ m, (target - current).natAbs ≤ m →
      iterSteps target lux m current = target) ∧
    adjust_brightness_step target lux target = ⟨false, target, [], []⟩ := by
  refine ⟨?_, ?_, by simp [adjust_brightness_step]⟩
  · intro k hk
    have hd := dist_iterSteps target lux k current (by omega)
    have hne : iterSteps target lux k current ≠ target := by omega
    refine ⟨(adjusted_iff _ _ _).mpr hne, ?_⟩
    rw [iterSteps_succ_out, stepNext_eq target lux _ hne]
    split_ifs with hgt <;> omega
  · intro m hm
    have hd := dist_iterSteps target lux ((target - current).natAbs) current
      le_rfl
    have hT : iterSteps target lux ((target - current).natAbs) current =
        target := by omega
    rw [show m = (target - current).natAbs + (m - (target - current).natAbs)
        by omega, iterSteps_add, hT, iterSteps_fixed]

/-- C2 witness at `current = 2`, `target = 5`: the first call adjusts, three
calls reach the target, and a call at the target is a no-op. -/
theorem step_convergence_witness :
    (adjust_brightness_step 5 7 (iterSteps 5 7 0 2)).adjusted = true ∧
    iterSteps 5 7 3 2 = 5 ∧
    adjust_brightness_step 5 7 5 = ⟨false, 5, [], []⟩ := by
  have h := step_convergence 2 5 7 (by decide) (by decide) (by decide)
    (by decide)
  exact ⟨(h.1 0 (by decide)).1, h.2.1 3 (by decide), h.2.2⟩

/-- C3: a single call to `adjust_brightness_step` returns `false` and issues
no set command and no display line when current equals target; otherwise it
computes `delta = +1` if `target > current` else `-1`, issues exactly one
set command for `current + delta`, renders one display line with the new
current, the target and the lux reading, and returns `true`. -/
theorem adjust_brightness_step_spec (target lux current : Int) :
    (current = target →
      adjust_brightness_step target lux current = ⟨false, current, [], []⟩) ∧
    (current ≠ target →
      adjust_brightness_step target lux current =
        ⟨true, current + (if target > current then 1 else -1),
          [current + (if target > current then 1 else -1)],
          [(current + (if target > current then 1 else -1), target, lux)]⟩) := by
  constructor
  · intro h
    simp [adjust_brightness_step, h]
  · intro h
    simp [adjust_brightness_step, h]

/-- C3 witness: a converged call at 7 and an upward call from 7 toward 9. -/
theorem adjust_brightness_step_spec_witness :
    adjust_brightness_step 7 42 7 = ⟨false, 7, [], []⟩ ∧
    adjust_brightness_step 9 42 7 = ⟨true, 8, [8], [(8, 9, 42)]⟩ := by
  refine ⟨(adjust_brightness_step_spec 7 42 7).1 rfl, ?_⟩
  have h := (adjust_brightness_step_spec 9 42 7).2 (by decide)
  norm_num at h
  exact h

/-- C5: in every loop iteration whose sensor read fails (the exception
reaches `except Exception` in `main`), the iteration leaves the device
untouched — no set command, no device query, no display line — and sleeps
the long duration; `main_iter` being total on every `SensorRead` outcome
embeds that the failure is caught at the loop boundary and is never
process-fatal. -/
theorem sensor_failure_iteration (cfg : Config) (sensor : SensorRead)
    (current : Int) (hfail : (read_ambient_light sensor).value = none) :
    main_iter cfg sensor current = ⟨current, cfg.long_sleep, 0, [], []⟩ := by
  unfold main_iter
  rw [hfail]

/-- C5 witness: a missing sensor file with the default configuration. -/
theorem sensor_failure_iteration_witness :
    main_iter ⟨300, 1, 25, 1/10, 1⟩ .missing 50 =
      ⟨50, (⟨300, 1, 25, 1/10, 1⟩ : Config).long_sleep, 0, [], []⟩ :=
  sensor_failure_iteration ⟨300, 1, 25, 1/10, 1⟩ .missing 50 rfl

/-- C6 counterexample: on a permission-denied open (`PermissionError`,
which the `except (FileNotFoundError, ValueError)` clause does not catch)
the read fails but no warning line is emitted, contradicting the claim that
every failure logs a warning before surfacing. -/
theorem read_ambient_light_counterexample :
    (read_ambient_light .denied).value = none ∧
    (read_ambient_light .denied).warned = false := by decide

/-- C6 amended: the sensor read fails exactly when the source cannot be
opened (missing or permission denied) or its content cannot be parsed as an
integer; the warning line is emitted exactly for the missing-file and
unparseable-content failures, while a permission-denied failure surfaces
without the warning. -/
theorem read_ambient_light_spec (s : SensorRead) :
    ((read_ambient_light s).value = none ↔
      s = .missing ∨ s = .denied ∨ s = .ok none) ∧
    ((read_ambient_light s).warned = true ↔
      s = .missing ∨ s = .ok none) := by
  cases s with
  | missing => simp [read_ambient_light]
  | denied => simp [read_ambient_light]
  | ok o => cases o <;> simp [read_ambient_light]

/-- C7: in every successful iteration (sensor read returns a lux value and
the target computation does not raise), the chosen sleep duration is the
short-sleep value when the step reported an adjustment and the long-sleep
value otherwise. -/
theorem sleep_selection (cfg : Config) (lux current target : Int)
    (h : calculate_target_brightness_checked lux cfg.max_lux cfg.min_lux =
      some target) :
    (main_iter cfg (.ok (some lux)) current).sleep =
      if (adjust_brightness_step target lux current).adjusted
      then cfg.short_sleep else cfg.long_sleep := by
  simp [main_iter, read_ambient_light, h]

/-- C7 witness: lux 150 with the default configuration gives target 50; the
step from 20 adjusts, so the short sleep is chosen. -/
theorem sleep_selection_witness :
    (main_iter ⟨300, 1, 25, 1/10, 1⟩ (.ok (some 150)) 20).sleep =
      (if (adjust_brightness_step 50 150 20).adjusted
       then (⟨300, 1, 25, 1/10, 1⟩ : Config).short_sleep
       else (⟨300, 1, 25, 1/10, 1⟩ : Config).long_sleep) :=
  sleep_selection ⟨300, 1, 25, 1/10, 1⟩ 150 20 50 (by decide)

/-- C8: for a device-reported absolute brightness `≥ 0` and maximum `> 0`,
`get_brightness` returns `current * 100 / max` as integer division rounding
down — the floor of the rational quotient. -/
theorem get_brightness_spec (current_brightness max_brightness : Int)
    (_hc : 0 ≤ current_brightness) (hm : 0 < max_brightness) :
    get_brightness current_brightness max_brightness =
      ⌊((current_brightness * 100 : ℤ) : ℚ) / (max_brightness : ℚ)⌋ :=
  fdiv_eq_floor_div _ hm

/-- C8 witness: absolute brightness 512 of maximum 1024 reads as 50%. -/
theorem get_brightness_spec_witness :
    get_brightness 512 1024 =
      ⌊((512 * 100 : ℤ) : ℚ) / ((1024 : ℤ) : ℚ)⌋ ∧
    get_brightness 512 1024 = 50 :=
  ⟨get_brightness_spec 512 1024 (by decide) (by decide), by decide⟩

/-- C9: for brightness in `[0, 100]` and bar width `≥ 0`, the bar body
contains exactly `brightness * max_width / 100` (floor) filled segments and
has total length `max_width`. -/
theorem bar_spec (brightness_level max_width : Int)
    (hb0 : 0 ≤ brightness_level) (hb1 : brightness_level ≤ 100)
    (hw : 0 ≤ max_width) :
    (bar brightness_level max_width).toList.count '#' =
      (num_hashes brightness_level max_width).toNat ∧
    (bar brightness_level max_width).length = max_width.toNat := by
  have hn0 : 0 ≤ num_hashes brightness_level max_width :=
    Int.fdiv_nonneg (by positivity) (by norm_num)
  have hnw : num_hashes brightness_level max_width ≤ max_width := by
    unfold num_hashes
    rw [Int.fdiv_eq_ediv _ (by norm_num)]
    calc (brightness_level * max_width) / 100
        ≤ (100 * max_width) / 100 :=
          Int.ediv_le_ediv (by norm_num) (by nlinarith)
      _ = max_width := Int.mul_ediv_cancel_left max_width (by norm_num)
  constructor
  · unfold bar
    simp [List.count_append, List.count_replicate]
  · unfold bar
    simp [String.length]
    omega

/-- C9 witness: width 25 with brightness 80, 0 and 100 gives 20, 0 and 25
filled segments. -/
theorem bar_spec_witness :
    ((bar 80 25).toList.count '#' = (num_hashes 80 25).toNat ∧
     (bar 80 25).length = (25 : Int).toNat) ∧
    (bar 80 25).toList.count '#' = 20 ∧
    (bar 0 25).toList.count '#' = 0 ∧
    (bar 100 25).toList.count '#' = 25 :=
  ⟨bar_spec 80 25 (by decide) (by decide) (by decide),
   by decide, by decide, by decide⟩

end AdjustBrightness
